import Mathlib

/-!
Verification of the canonicalization and fetch pipeline of the
50.038-project repository (src/download.py), shallowly embedded in Lean.

Tables are lists of rows.  Polars `group_by(k).agg(col.first())` keeps the
within-group element order of the frame, so "the aggregated first value for
key k" is the first row of the frame whose key equals k; a left join on a
one-row-per-key frame replaces each row's columns by that first row's
values.  Both passes of `unify_title_url_mappings` are embedded this way.

The fetch worker `_download_one` talks to an external search/download
collaborator (yt-dlp); the collaborator is embedded as a record of
`Except`-valued functions (an exception raised by the collaborator is an
`Except.error`), and the storage directory as the list of file names it
contains.  The orchestrator's thread pool delivers outcomes in an arbitrary
completion order, so its fan-in loop is embedded as a fold over an
arbitrary list of (row, error) outcomes.
-/

namespace Song

/-- One row of the (url, title, artist) table. -/
structure Row where
  url : String
  title : String
  artist : String
deriving DecidableEq, Repr

/-- Pass 1 on a single row: replace title/artist by those of the first row
of the table with the same url (`group_by("url").agg(first)` + left join). -/
def step1Row (t : List Row) (r : Row) : Row :=
  match t.find? (fun s => s.url == r.url) with
  | some s => ⟨r.url, s.title, s.artist⟩
  | none => r

/-- Pass 1 of `unify_title_url_mappings`: canonical title/artist per url. -/
def step1 (t : List Row) : List Row :=
  t.map (step1Row t)

/-- Pass 2 on a single row: replace url by that of the first row of the
pass-1 table with the same (title, artist). -/
def step2Row (t1 : List Row) (r : Row) : Row :=
  match t1.find? (fun s => s.title == r.title && s.artist == r.artist) with
  | some s => ⟨s.url, r.title, r.artist⟩
  | none => r

/-- Pass 2 of `unify_title_url_mappings`: canonical url per (title, artist). -/
def step2 (t1 : List Row) : List Row :=
  t1.map (step2Row t1)

/-- `unify_title_url_mappings` from src/download.py: pass 1 then pass 2.
The function returns the transformed frame; it applies no `unique`. -/
def unify_title_url_mappings (t : List Row) : List Row :=
  step2 (step1 t)

/-- Fixed clip length in seconds (`CLIP_DURATION` in src/download.py). -/
def CLIP_DURATION : Nat := 30

/-- The trim window computed by `_download_one`: `start_time` is 0 when the
resolved duration is at most `CLIP_DURATION`, else
`(duration - CLIP_DURATION) // 2`; the requested download range is always
`(start_time, start_time + CLIP_DURATION)`. -/
def trimWindow (duration : Nat) : Nat × Nat :=
  let start := if duration ≤ CLIP_DURATION then 0 else (duration - CLIP_DURATION) / 2
  (start, start + CLIP_DURATION)

/-- The trim window as worded by the spec: `[0, duration]` when
`duration ≤ D`, else the centered window.  Stated only for comparison with
`trimWindow`, which is the code's computation. -/
def specTrimWindow (duration : Nat) : Nat × Nat :=
  if duration ≤ 30 then (0, duration)
  else ((duration - 30) / 2, (duration - 30) / 2 + 30)

/-- The expected final artifact name for a track id
(`os.path.join(SONGS_DIR, f"{track_id}.mp3")`, with the fixed directory
abstracted away: storage is the list of names inside `SONGS_DIR`). -/
def finalPath (trackId : String) : String := trackId ++ ".mp3"

/-- The yt-dlp search query string `f"ytsearch1:{title} {artist}"`. -/
def searchQuery (title artist : String) : String :=
  "ytsearch1:" ++ title ++ " " ++ artist

/-- The metadata `_download_one` reads from a resolved search result. -/
structure SearchInfo where
  duration : Nat
  webpage_url : String

/-- One behavior of the external collaborator (yt-dlp) plus the junk files
it may leave behind: `resolve` is the metadata-only extraction for a query,
`download` the range-download for a webpage url and trim window (an
`Except.error` is an exception raised by the collaborator), and
`leftovers` the intermediate files (of extensions other than the final
`.mp3`, or a partial `.mp3`) present in storage when a download attempt
fails. -/
structure ExtWorld where
  resolve : String → Except String SearchInfo
  download : String → Nat × Nat → Except String Unit
  leftovers : List String

/-- `_download_one` from src/download.py, as a transformer of the storage
file list: resolve the query, compute the trim window, download; on any
exception, delete the file at the expected final path if it exists and
return `(track_id, str(e))`; on success return `(track_id, None)` with the
final artifact in storage. -/
def _download_one (w : ExtWorld) (title artist trackId : String)
    (files : List String) : (String × Option String) × List String :=
  let final := finalPath trackId
  match w.resolve (searchQuery title artist) with
  | Except.error e => ((trackId, some e), files.filter (fun f => f != final))
  | Except.ok info =>
    match w.download info.webpage_url (trimWindow info.duration) with
    | Except.error e =>
      ((trackId, some e), (files ++ w.leftovers).filter (fun f => f != final))
    | Except.ok _ => ((trackId, none), files ++ [final])

/-- The track id derived from a url: `url.rsplit("/", 1)[-1]`, the text
after the last slash (the whole url when it has no slash). -/
def itemId (url : String) : String :=
  String.mk ((url.data.reverse.takeWhile (fun c => c != '/')).reverse)

/-- Python `s.endswith(suf)` on the character sequences. -/
def endswith (s suf : String) : Bool :=
  suf.data.isSuffixOf s.data

/-- Python `s.removesuffix(suf)` on the character sequences. -/
def removesuffix (s suf : String) : String :=
  if suf.data.isSuffixOf s.data then
    String.mk (s.data.take (s.data.length - suf.data.length))
  else s

/-- The set of already-completed track ids: names of `.mp3` files in the
storage directory with the extension stripped. -/
def existingIds (files : List String) : List String :=
  (files.filter (fun f => endswith f ".mp3")).map (fun f => removesuffix f ".mp3")

/-- The completion filter of `get_mp3s_for_dataset`: keep the canonical
rows whose derived id is not among the existing completed ids. -/
def pendingRows (songs : List Row) (files : List String) : List Row :=
  songs.filter (fun r => !(existingIds files).contains (itemId r.url))

/-- The orchestrator's fan-in loop over `as_completed` outcomes: append the
row's url to `failed` whenever the outcome carries an error. -/
def runLoop : List (Row × Option String) → List String → List String
  | [], failed => failed
  | (row, err) :: rest, failed =>
    match err with
    | some _ => runLoop rest (failed ++ [row.url])
    | none => runLoop rest failed

/-- End-of-run observable state of `get_mp3s_for_dataset`: the collected
failed urls, the failure count printed by the final summary (only printed
when failures exist), and the content written to the fixed manifest path
`failed_urls.txt` (`none` when the file is never opened). -/
structure RunEffects where
  failed : List String
  summaryFailedCount : Option Nat
  manifest : Option String
deriving DecidableEq, Repr

/-- The end-of-run effects of `get_mp3s_for_dataset`, given the per-item
outcomes in completion order: collect failed urls; if any failed, print the
failure count and write the newline-joined urls to the manifest path;
otherwise do neither. -/
def get_mp3s_effects (outcomes : List (Row × Option String)) : RunEffects :=
  let failed := runLoop outcomes []
  { failed := failed
    summaryFailedCount := if failed.isEmpty then none else some failed.length
    manifest :=
      if failed.isEmpty then none else some (String.intercalate "\n" failed) }

/-- Content of the manifest path after a run, given its content `prev`
before the run: opening the path with mode "w" replaces it; a run that
never opens the path leaves it unchanged. -/
def manifestAfterRun (prev : Option String)
    (outcomes : List (Row × Option String)) : Option String :=
  match (get_mp3s_effects outcomes).manifest with
  | none => prev
  | some m => some m

/-- Raw table where url "u1" has two spellings and its canonical pair
("A", "X") is first claimed by the earlier url "u0". -/
def t0ex : List Row := [⟨"u0", "A", "X"⟩, ⟨"u1", "A", "X"⟩, ⟨"u1", "B", "Y"⟩]

/-- Raw table with a single url carrying two (title, artist) spellings. -/
def t4ex : List Row := [⟨"u1", "A", "X"⟩, ⟨"u1", "B", "Y"⟩]

/-- Collaborator behavior whose download step raises after leaving an
intermediate file "X.webm" in storage. -/
def wFail : ExtWorld where
  resolve := fun _ => Except.ok ⟨100, "watch"⟩
  download := fun _ _ => Except.error "network error"
  leftovers := ["X.webm"]

/-- Collaborator behavior where both steps succeed. -/
def wOk : ExtWorld where
  resolve := fun _ => Except.ok ⟨100, "watch"⟩
  download := fun _ _ => Except.ok ()
  leftovers := []

/-- Canonical rows whose derived ids are A, B, C. -/
def c8Rows : List Row := [⟨"t/A", "a", "x"⟩, ⟨"t/B", "b", "y"⟩, ⟨"t/C", "c", "z"⟩]

/-- Storage listing with completed artifacts for ids A and C. -/
def c8Files : List String := ["A.mp3", "C.mp3"]

/-- A two-item completion-order outcome list with one failure. -/
def exOut : List (Row × Option String) :=
  [(⟨"p/u1", "a", "x"⟩, some "boom"), (⟨"p/u2", "b", "y"⟩, none)]

/-- Ten items in completion order, where the 3rd and 7th failed. -/
def ex10 : List (Row × Option String) :=
  [(⟨"p/u1", "t1", "a1"⟩, none), (⟨"p/u2", "t2", "a2"⟩, none),
   (⟨"p/u3", "t3", "a3"⟩, some "err3"), (⟨"p/u4", "t4", "a4"⟩, none),
   (⟨"p/u5", "t5", "a5"⟩, none), (⟨"p/u6", "t6", "a6"⟩, none),
   (⟨"p/u7", "t7", "a7"⟩, some "err7"), (⟨"p/u8", "t8", "a8"⟩, none),
   (⟨"p/u9", "t9", "a9"⟩, none), (⟨"p/u10", "t10", "a10"⟩, none)]

theorem step1Row_url (t : List Row) (r : Row) : (step1Row t r).url = r.url := by
  unfold step1Row
  cases t.find? (fun s => s.url == r.url) <;> rfl

/-- A member of the table always makes `find?` on its own url succeed. -/
theorem find?_url_of_mem {t : List Row} {r : Row} (h : r ∈ t) :
    ∃ w, t.find? (fun s => s.url == r.url) = some w := by
  cases hf : t.find? (fun s => s.url == r.url) with
  | some w => exact ⟨w, rfl⟩
  | none =>
    have := List.find?_eq_none.mp hf r h
    simp at this

/-- A member of the table always makes `find?` on its own pair succeed. -/
theorem find?_pair_of_mem {t : List Row} {r : Row} (h : r ∈ t) :
    ∃ w, t.find? (fun s => s.title == r.title && s.artist == r.artist) = some w := by
  cases hf : t.find? (fun s => s.title == r.title && s.artist == r.artist) with
  | some w => exact ⟨w, rfl⟩
  | none =>
    have := List.find?_eq_none.mp hf r h
    simp at this

/-- In the pass-1 table, the url determines the (title, artist) columns. -/
theorem step1_url_det {t : List Row} {r1 r2 : Row}
    (h1 : r1 ∈ step1 t) (h2 : r2 ∈ step1 t) (hu : r1.url = r2.url) :
    r1.title = r2.title ∧ r1.artist = r2.artist := by
  obtain ⟨s1, hs1, he1⟩ := List.mem_map.mp h1
  obtain ⟨s2, hs2, he2⟩ := List.mem_map.mp h2
  obtain ⟨w1, hw1⟩ := find?_url_of_mem hs1
  obtain ⟨w2, hw2⟩ := find?_url_of_mem hs2
  have hu1 : r1.url = s1.url := by rw [← he1]; exact step1Row_url t s1
  have hu2 : r2.url = s2.url := by rw [← he2]; exact step1Row_url t s2
  have hs : s1.url = s2.url := by rw [← hu1, ← hu2, hu]
  rw [hs] at hw1
  have hww : w1 = w2 := by
    have := hw1.symm.trans hw2
    exact Option.some.inj this
  have e1 : r1 = ⟨s1.url, w1.title, w1.artist⟩ := by
    rw [← he1]; unfold step1Row; rw [hs, hw1]
  have e2 : r2 = ⟨s2.url, w2.title, w2.artist⟩ := by
    rw [← he2]; unfold step1Row; rw [hw2]
  rw [e1, e2, hww]
  exact ⟨rfl, rfl⟩

/-- Structure of a canonicalized row: it carries the url, title and artist of
the first pass-1 row having its (title, artist) pair, and that first row is
found by `find?` on the pair. -/
theorem mem_step2_char {t1 : List Row} {r : Row} (h : r ∈ step2 t1) :
    ∃ w, w ∈ t1 ∧ w.title = r.title ∧ w.artist = r.artist ∧ w.url = r.url ∧
      t1.find? (fun s => s.title == r.title && s.artist == r.artist) = some w := by
  obtain ⟨q, hq, he⟩ := List.mem_map.mp h
  obtain ⟨w, hw⟩ := find?_pair_of_mem hq
  have hrw : r = ⟨w.url, q.title, q.artist⟩ := by
    rw [← he]; unfold step2Row; rw [hw]
  have hpw := List.find?_some hw
  have hwt : w.title = q.title := by
    have := (Bool.and_eq_true _ _).mp hpw
    exact eq_of_beq this.1
  have hwa : w.artist = q.artist := by
    have := (Bool.and_eq_true _ _).mp hpw
    exact eq_of_beq this.2
  refine ⟨w, List.mem_of_find?_eq_some hw, ?_, ?_, ?_, ?_⟩
  · rw [hrw]; exact hwt
  · rw [hrw]; exact hwa
  · rw [hrw]
  · rw [hrw]; exact hw

/-- Distinct canonicalized rows never share a url. -/
theorem unify_url_det {t : List Row} {r1 r2 : Row}
    (h1 : r1 ∈ unify_title_url_mappings t) (h2 : r2 ∈ unify_title_url_mappings t)
    (hu : r1.url = r2.url) : r1 = r2 := by
  obtain ⟨w1, hw1m, hw1t, hw1a, hw1u, _⟩ := mem_step2_char h1
  obtain ⟨w2, hw2m, hw2t, hw2a, hw2u, _⟩ := mem_step2_char h2
  have hwu : w1.url = w2.url := by rw [hw1u, hw2u, hu]
  obtain ⟨ht, ha⟩ := step1_url_det hw1m hw2m hwu
  cases r1 with
  | mk u1 t1 a1 =>
    cases r2 with
    | mk u2 t2 a2 =>
      simp only [Row.mk.injEq]
      refine ⟨hu, ?_, ?_⟩
      · have : t1 = w1.title := hw1t.symm
        rw [this, ht, hw2t]
      · have : a1 = w1.artist := hw1a.symm
        rw [this, ha, hw2a]

/-- Distinct canonicalized rows never share a (title, artist) pair. -/
theorem unify_pair_det {t : List Row} {r1 r2 : Row}
    (h1 : r1 ∈ unify_title_url_mappings t) (h2 : r2 ∈ unify_title_url_mappings t)
    (ht : r1.title = r2.title) (ha : r1.artist = r2.artist) : r1 = r2 := by
  obtain ⟨w1, hw1m, hw1t, hw1a, hw1u, hf1⟩ := mem_step2_char h1
  obtain ⟨w2, hw2m, hw2t, hw2a, hw2u, hf2⟩ := mem_step2_char h2
  rw [ht, ha] at hf1
  have hww : w1 = w2 := Option.some.inj (hf1.symm.trans hf2)
  cases r1 with
  | mk u1 t1 a1 =>
    cases r2 with
    | mk u2 t2 a2 =>
      simp only [Row.mk.injEq]
      refine ⟨?_, ht, ha⟩
      have : u1 = w1.url := hw1u.symm
      rw [this, hww, hw2u]

theorem map_self {α : Type} (f : α → α) (l : List α) (h : ∀ x ∈ l, f x = x) :
    l.map f = l := by
  induction l with
  | nil => rfl
  | cons a as ih =>
    simp only [List.map_cons]
    rw [h a (by simp), ih (fun x hx => h x (by simp [hx]))]

/-- Pass 1 leaves every canonicalized row unchanged. -/
theorem step1_fix {t : List Row} {r : Row} (h : r ∈ unify_title_url_mappings t) :
    step1Row (unify_title_url_mappings t) r = r := by
  obtain ⟨s, hf⟩ := find?_url_of_mem h
  have hsm := List.mem_of_find?_eq_some hf
  have hsu : s.url = r.url := by
    have hps := List.find?_some hf
    simpa using hps
  have hsr : s = r := unify_url_det hsm h hsu
  unfold step1Row
  rw [hf, hsr]

/-- Pass 2 leaves every canonicalized row unchanged. -/
theorem step2_fix {t : List Row} {r : Row} (h : r ∈ unify_title_url_mappings t) :
    step2Row (unify_title_url_mappings t) r = r := by
  obtain ⟨s, hf⟩ := find?_pair_of_mem h
  have hsm := List.mem_of_find?_eq_some hf
  have hp : s.title = r.title ∧ s.artist = r.artist := by
    have hps := List.find?_some hf
    simpa using hps
  have hsr : s = r := unify_pair_det hsm h hp.1 hp.2
  unfold step2Row
  rw [hf, hsr]

/-- Applying the whole transformation to its own output changes nothing. -/
theorem unify_idem (t : List Row) :
    unify_title_url_mappings (unify_title_url_mappings t) = unify_title_url_mappings t := by
  have h1 : step1 (unify_title_url_mappings t) = unify_title_url_mappings t :=
    map_self _ _ (fun r hr => step1_fix hr)
  have h2 : step2 (unify_title_url_mappings t) = unify_title_url_mappings t :=
    map_self _ _ (fun r hr => step2_fix hr)
  show step2 (step1 (unify_title_url_mappings t)) = unify_title_url_mappings t
  rw [h1, h2]

/-- Every canonicalized row carries the title/artist of the first raw row
in source order with its url. -/
theorem unify_canon_pair {t : List Row} {r : Row} (h : r ∈ unify_title_url_mappings t) :
    (t.find? (fun s => s.url == r.url)).map (fun s => (s.title, s.artist)) =
      some (r.title, r.artist) := by
  obtain ⟨w, hwm, hwt, hwa, hwu, _⟩ := mem_step2_char h
  obtain ⟨s, hs, he⟩ := List.mem_map.mp hwm
  obtain ⟨v, hv⟩ := find?_url_of_mem hs
  have hwsu : w.url = s.url := by rw [← he]; exact step1Row_url t s
  have hwe : w = ⟨s.url, v.title, v.artist⟩ := by
    rw [← he]; unfold step1Row; rw [hv]
  have hru : r.url = s.url := by rw [← hwu, hwsu]
  rw [hru, hv]
  have hvt : v.title = r.title := by rw [← hwt, hwe]
  have hva : v.artist = r.artist := by rw [← hwa, hwe]
  simp [hvt, hva]

/-- Worker equation: when the resolve step raises, the worker returns the
message and cleans the final path out of the storage listing. -/
theorem download_one_eq_resolve_error {w : ExtWorld} {title artist : String}
    (trackId : String) (files : List String) {e : String}
    (hr : w.resolve (searchQuery title artist) = Except.error e) :
    _download_one w title artist trackId files =
      ((trackId, some e), files.filter (fun f => f != finalPath trackId)) := by
  simp [_download_one, hr]

/-- Worker equation: when the download step raises, the worker returns the
message and cleans the final path out of the post-attempt storage listing. -/
theorem download_one_eq_download_error {w : ExtWorld} {title artist : String}
    (trackId : String) (files : List String) {info : SearchInfo} {e : String}
    (hr : w.resolve (searchQuery title artist) = Except.ok info)
    (hd : w.download info.webpage_url (trimWindow info.duration) = Except.error e) :
    _download_one w title artist trackId files =
      ((trackId, some e),
        (files ++ w.leftovers).filter (fun f => f != finalPath trackId)) := by
  simp [_download_one, hr, hd]

/-- Worker equation: when both steps succeed, the worker reports no error
and the final artifact is in storage. -/
theorem download_one_eq_ok {w : ExtWorld} {title artist : String}
    (trackId : String) (files : List String) {info : SearchInfo}
    (hr : w.resolve (searchQuery title artist) = Except.ok info)
    (hd : w.download info.webpage_url (trimWindow info.duration) = Except.ok ()) :
    _download_one w title artist trackId files =
      ((trackId, none), files ++ [finalPath trackId]) := by
  simp [_download_one, hr, hd]

/-- The fan-in loop collects exactly the urls of the error-carrying
outcomes, in completion order, after its accumulator. -/
theorem runLoop_eq (outcomes : List (Row × Option String)) :
    ∀ acc, runLoop outcomes acc =
      acc ++ (outcomes.filter (fun p => p.2.isSome)).map (fun p => p.1.url) := by
  induction outcomes with
  | nil => intro acc; simp [runLoop]
  | cons p rest ih =>
    intro acc
    obtain ⟨row, err⟩ := p
    cases err with
    | none => simp [runLoop, ih, List.filter]
    | some e => simp [runLoop, ih, List.filter]

end Song

/-- C1: for every raw table, within the canonicalized output viewed as a set
of (url, title, artist) triples, url is a key (rows sharing a url are equal)
and (title, artist) is a key (rows sharing title and artist are equal). -/
theorem c1_canonical_output_keys (t : List Song.Row) (r1 r2 : Song.Row)
    (h1 : r1 ∈ Song.unify_title_url_mappings t)
    (h2 : r2 ∈ Song.unify_title_url_mappings t) :
    (r1.url = r2.url → r1 = r2) ∧
    (r1.title = r2.title → r1.artist = r2.artist → r1 = r2) :=
  ⟨fun hu => Song.unify_url_det h1 h2 hu,
   fun ht ha => Song.unify_pair_det h1 h2 ht ha⟩

theorem c1_canonical_output_keys_witness :
    (⟨"u1", "A", "X"⟩ : Song.Row) ∈
        Song.unify_title_url_mappings
          [⟨"u1", "A", "X"⟩, ⟨"u2", "A", "X"⟩] ∧
    (⟨"u1", "A", "X"⟩ : Song.Row) = ⟨"u1", "A", "X"⟩ := by
  refine ⟨by decide, ?_⟩
  exact (c1_canonical_output_keys [⟨"u1", "A", "X"⟩, ⟨"u2", "A", "X"⟩]
    ⟨"u1", "A", "X"⟩ ⟨"u1", "A", "X"⟩ (by decide) (by decide)).1 rfl

/-- C2: canonicalization is idempotent — applying it to its own output
yields the same table (here even with equal row order). -/
theorem c2_canonicalize_idempotent (t : List Song.Row) :
    Song.unify_title_url_mappings (Song.unify_title_url_mappings t) =
      Song.unify_title_url_mappings t :=
  Song.unify_idem t

/-- C3 counterexample: in `t0ex`, url "u1" appears with the two distinct
spellings ("A", "X") and ("B", "Y"), yet the canonicalized output contains
no row with url "u1" at all (its pair was claimed by the earlier url "u0"),
so the output does not contain exactly one pair for that url. -/
theorem c3_first_seen_counterexample :
    (⟨"u1", "A", "X"⟩ : Song.Row) ∈ Song.t0ex ∧
    (⟨"u1", "B", "Y"⟩ : Song.Row) ∈ Song.t0ex ∧
    (("A", "X") : String × String) ≠ ("B", "Y") ∧
    ¬ ∃ r ∈ Song.unify_title_url_mappings Song.t0ex, r.url = "u1" := by
  decide

/-- C3 amended: every row of the canonicalized output whose url is u carries
the title/artist of the first raw row in source order with url u; hence the
output has at most one (title, artist) pair per url, but a url with several
spellings may be absent from the output entirely (its pair can be claimed
by an earlier url in pass 2). -/
theorem c3_first_seen_amended (t : List Song.Row) (r : Song.Row)
    (h : r ∈ Song.unify_title_url_mappings t) :
    (t.find? (fun s => s.url == r.url)).map (fun s => (s.title, s.artist)) =
      some (r.title, r.artist) :=
  Song.unify_canon_pair h

theorem c3_first_seen_amended_witness :
    (Song.t0ex.find? (fun s => s.url == "u0")).map (fun s => (s.title, s.artist)) =
      some ("A", "X") :=
  c3_first_seen_amended Song.t0ex ⟨"u0", "A", "X"⟩ (by decide)

/-- C4 counterexample: the table returned by `unify_title_url_mappings` is
not deduplicated — on `t4ex` it returns the same row twice. -/
theorem c4_no_duplicates_counterexample :
    Song.unify_title_url_mappings Song.t4ex =
      [⟨"u1", "A", "X"⟩, ⟨"u1", "A", "X"⟩] ∧
    ¬ (Song.unify_title_url_mappings Song.t4ex).Nodup := by
  decide

/-- C4 amended: canonicalization returns exactly one output row per input
row — it performs no deduplication itself (duplicate rows appear whenever a
url occurs more than once); distinct-filtering happens downstream. -/
theorem c4_row_count_amended (t : List Song.Row) :
    (Song.unify_title_url_mappings t).length = t.length := by
  simp [Song.unify_title_url_mappings, Song.step2, Song.step1]

/-- C5 counterexample: for a resolved duration of 10 seconds the worker
requests the window (0, 30), not the window [0, 10] stated by the claim. -/
theorem c5_trim_window_counterexample :
    Song.trimWindow 10 = (0, 30) ∧
    Song.trimWindow 10 ≠ (0, 10) ∧
    Song.trimWindow 10 ≠ Song.specTrimWindow 10 := by
  decide

/-- C5 amended: the requested window always has length `CLIP_DURATION`;
its start is 0 when duration ≤ CLIP_DURATION (the whole media is then
covered, since it ends before the window does) and the centered
floor((duration − CLIP_DURATION)/2) otherwise; duration 10 gives (0, 30)
and duration 100 gives (35, 65). -/
theorem c5_trim_window_amended :
    (∀ d, (Song.trimWindow d).2 = (Song.trimWindow d).1 + Song.CLIP_DURATION ∧
      (Song.trimWindow d).1 =
        if d ≤ Song.CLIP_DURATION then 0 else (d - Song.CLIP_DURATION) / 2) ∧
    Song.trimWindow 10 = (0, 30) ∧ Song.trimWindow 100 = (35, 65) := by
  refine ⟨fun d => ⟨rfl, rfl⟩, by decide, by decide⟩

/-- C6 counterexample: after a failed download for id "X" that left an
intermediate file "X.webm", the worker returns an error but "X.webm" — a
file named `X.*` — is still in storage (the cleanup removes only the file
at the expected final path "X.mp3"). -/
theorem c6_cleanup_counterexample :
    (((Song._download_one Song.wFail "t" "a" "X" []).1).2).isSome = true ∧
    "X.webm" ∈ (Song._download_one Song.wFail "t" "a" "X" []).2 ∧
    ("X.".data).isPrefixOf ("X.webm".data) = true := by
  decide

/-- C6 amended: whenever the worker returns a failure outcome, no file
exists at the expected final path `{trackId}.mp3` after the call — partial
files at that path are deleted before returning; files of other names
(e.g. intermediate `{trackId}.webm`) are not touched. -/
theorem c6_cleanup_amended (w : Song.ExtWorld) (title artist trackId : String)
    (files : List String)
    (h : ((Song._download_one w title artist trackId files).1).2 ≠ none) :
    Song.finalPath trackId ∉ (Song._download_one w title artist trackId files).2 := by
  intro hmem
  cases hr : w.resolve (Song.searchQuery title artist) with
  | error e =>
    rw [Song.download_one_eq_resolve_error trackId files hr] at hmem
    simp only [List.mem_filter] at hmem
    simpa using hmem.2
  | ok info =>
    cases hd : w.download info.webpage_url (Song.trimWindow info.duration) with
    | error e =>
      rw [Song.download_one_eq_download_error trackId files hr hd] at hmem
      simp only [List.mem_filter] at hmem
      simpa using hmem.2
    | ok u =>
      cases u
      rw [Song.download_one_eq_ok trackId files hr hd] at h
      exact h rfl

theorem c6_cleanup_amended_witness :
    Song.finalPath "X" ∉
      (Song._download_one Song.wFail "t" "a" "X" [Song.finalPath "X"]).2 :=
  c6_cleanup_amended Song.wFail "t" "a" "X" [Song.finalPath "X"] (by decide)

/-- C7: for every collaborator behavior — including behaviors whose resolve
or download step raises — the worker returns a (track_id, error) outcome
whose id is the requested one; the error is `none` exactly when the resolve
succeeded and the download of the computed window succeeded.  Exceptions
never cross the worker boundary: they are converted into the returned
message. -/
theorem c7_fetch_outcome_total (w : Song.ExtWorld) (title artist trackId : String)
    (files : List String) :
    ((Song._download_one w title artist trackId files).1).1 = trackId ∧
    (((Song._download_one w title artist trackId files).1).2 = none ↔
      ∃ info, w.resolve (Song.searchQuery title artist) = Except.ok info ∧
        w.download info.webpage_url (Song.trimWindow info.duration) = Except.ok ()) := by
  cases hr : w.resolve (Song.searchQuery title artist) with
  | error e =>
    rw [Song.download_one_eq_resolve_error trackId files hr]
    refine ⟨rfl, ?_, ?_⟩
    · intro hc; exact absurd hc (by simp)
    · rintro ⟨info, hinfo, -⟩
      exact absurd hinfo (by simp)
  | ok info =>
    cases hd : w.download info.webpage_url (Song.trimWindow info.duration) with
    | error e =>
      rw [Song.download_one_eq_download_error trackId files hr hd]
      refine ⟨rfl, ?_, ?_⟩
      · intro hc; exact absurd hc (by simp)
      · rintro ⟨info2, hinfo, hdl⟩
        have hii : info2 = info := (Except.ok.inj hinfo).symm
        rw [hii, hd] at hdl
        exact absurd hdl (by simp)
    | ok u =>
      cases u
      rw [Song.download_one_eq_ok trackId files hr hd]
      exact ⟨rfl, fun _ => ⟨info, rfl, hd⟩, fun _ => rfl⟩

theorem c7_fetch_outcome_total_witness :
    ((Song._download_one Song.wOk "t" "a" "X" []).1).1 = "X" ∧
    ((Song._download_one Song.wOk "t" "a" "X" []).1).2 = none :=
  ⟨(c7_fetch_outcome_total Song.wOk "t" "a" "X" []).1,
   (c7_fetch_outcome_total Song.wOk "t" "a" "X" []).2.mpr
     ⟨⟨100, "watch"⟩, rfl, rfl⟩⟩

/-- C8: the completion filter keeps exactly the canonical rows whose
derived id (text after the last slash of the url) is not among the ids of
the existing `.mp3` artifacts; with artifacts for ids A and C and canonical
ids A, B, C, pending is exactly the B row. -/
theorem c8_pending_filter :
    (∀ songs files r, r ∈ Song.pendingRows songs files ↔
      r ∈ songs ∧
        (Song.existingIds files).contains (Song.itemId r.url) = false) ∧
    Song.pendingRows Song.c8Rows Song.c8Files = [⟨"t/B", "b", "y"⟩] := by
  constructor
  · intro songs files r
    simp [Song.pendingRows, List.mem_filter]
  · decide

theorem c8_pending_filter_witness :
    (⟨"t/B", "b", "y"⟩ : Song.Row) ∈ Song.pendingRows Song.c8Rows Song.c8Files :=
  (c8_pending_filter.1 Song.c8Rows Song.c8Files ⟨"t/B", "b", "y"⟩).mpr
    ⟨by decide, by decide⟩

/-- C9 counterexample: on the spec's own 10-item scenario (items 3 and 7
fail), the run's only aggregate count — the failure count it prints and
that drives the manifest — is 2, not the succeeded count 8; the function
returns `None`, so no `{succeeded, failed}` value is reported. -/
theorem c9_aggregate_counterexample :
    Song.ex10.length = 10 ∧
    (Song.get_mp3s_effects Song.ex10).failed = ["p/u3", "p/u7"] ∧
    (Song.get_mp3s_effects Song.ex10).summaryFailedCount = some 2 ∧
    (Song.get_mp3s_effects Song.ex10).summaryFailedCount ≠
      some (Song.ex10.length - (Song.get_mp3s_effects Song.ex10).failed.length) := by
  decide

/-- C9 amended: the run collects exactly the urls of the failed items, in
completion order; when at least one item failed, the manifest written to
the fixed path is the newline-joined failed urls and the printed summary
count is the number of failures; when no item failed, neither the summary
nor the manifest is produced.  No aggregate value is returned. -/
theorem c9_aggregate_amended (outcomes : List (Song.Row × Option String)) :
    (Song.get_mp3s_effects outcomes).failed =
      (outcomes.filter (fun p => p.2.isSome)).map (fun p => p.1.url) ∧
    ((Song.get_mp3s_effects outcomes).failed = [] →
      (Song.get_mp3s_effects outcomes).manifest = none ∧
      (Song.get_mp3s_effects outcomes).summaryFailedCount = none) ∧
    ((Song.get_mp3s_effects outcomes).failed ≠ [] →
      (Song.get_mp3s_effects outcomes).manifest =
        some (String.intercalate "\n" (Song.get_mp3s_effects outcomes).failed) ∧
      (Song.get_mp3s_effects outcomes).summaryFailedCount =
        some (Song.get_mp3s_effects outcomes).failed.length) := by
  have hf : (Song.get_mp3s_effects outcomes).failed = Song.runLoop outcomes [] := rfl
  refine ⟨?_, ?_, ?_⟩
  · rw [hf, Song.runLoop_eq]
    simp
  · intro h0
    rw [hf] at h0
    constructor <;>
      simp [Song.get_mp3s_effects, h0]
  · intro hne
    rw [hf] at hne
    have : (Song.runLoop outcomes []).isEmpty = false := by
      simpa [List.isEmpty_iff] using hne
    constructor <;>
      simp [Song.get_mp3s_effects, this]

theorem c9_aggregate_amended_witness :
    (Song.get_mp3s_effects Song.exOut).failed ≠ [] ∧
    (Song.get_mp3s_effects Song.exOut).manifest =
      some (String.intercalate "\n" (Song.get_mp3s_effects Song.exOut).failed) :=
  ⟨by decide, ((c9_aggregate_amended Song.exOut).2.2 (by decide)).1⟩

/-- C10: when every dispatched item succeeds, the run never opens the
manifest path, so whatever manifest a previous run left there is unchanged
after this run. -/
theorem c10_no_failures_manifest_untouched (prev : Option String)
    (outcomes : List (Song.Row × Option String))
    (h : ∀ p ∈ outcomes, p.2 = none) :
    Song.manifestAfterRun prev outcomes = prev := by
  have hfail : Song.runLoop outcomes [] = [] := by
    rw [Song.runLoop_eq]
    have hfilter : outcomes.filter (fun p => p.2.isSome) = [] :=
      List.filter_eq_nil_iff.mpr (fun p hp => by simp [h p hp])
    simp [hfilter]
  have hman : (Song.get_mp3s_effects outcomes).manifest = none := by
    simp [Song.get_mp3s_effects, hfail]
  unfold Song.manifestAfterRun
  rw [hman]

theorem c10_no_failures_manifest_untouched_witness :
    Song.manifestAfterRun (some "old manifest")
      [(⟨"p/u1", "t", "a"⟩, none), (⟨"p/u2", "t", "a"⟩, none)] =
      some "old manifest" :=
  c10_no_failures_manifest_untouched (some "old manifest")
    [(⟨"p/u1", "t", "a"⟩, none), (⟨"p/u2", "t", "a"⟩, none)] (by decide)
